import Mathlib

/-!
Shallow embedding of the DRM renderer (`drm.cpp`, class `DrmRenderer`) of this
repository.  Kernel and backend interactions (ioctl outcomes, the backend
renderer's map/unmap, blob creation) are modelled by an oracle `DrmEnv`; each
operation additionally records the sequence of externally visible kernel calls
as a trace of `DrmEvent`s, so that ordering and exactly-once properties can be
stated about a single call.
-/

namespace DrmSpec

/-- `DRM_FORMAT_MOD_INVALID` from `drm_fourcc.h`: vendor NONE with value
`(1 << 56) - 1`. -/
def DRM_FORMAT_MOD_INVALID : Nat := 2 ^ 56 - 1

/-- Modelled from the spec: the closed colorspace set (BT.601 / BT.709 /
BT.2020, or unknown).  The numeric constants come from `Limelight.h`, which is
outside the supplied sources; only their distinctness matters here. -/
def COLORSPACE_REC_601 : Int := 0

/-- Modelled from the spec: BT.709 colorspace tag (see `COLORSPACE_REC_601`). -/
def COLORSPACE_REC_709 : Int := 1

/-- Modelled from the spec: BT.2020 colorspace tag (see `COLORSPACE_REC_601`). -/
def COLORSPACE_REC_2020 : Int := 2

/-- One DRM PRIME object of a frame descriptor: a DMA-capable file descriptor
and a format modifier (`AVDRMObjectDescriptor`). -/
structure AVDRMObjectDescriptor where
  fd : Int
  format_modifier : Nat
  deriving DecidableEq

instance : Inhabited AVDRMObjectDescriptor := ⟨⟨0, 0⟩⟩

/-- One plane of a composed layer (`AVDRMPlaneDescriptor`). -/
structure AVDRMPlaneDescriptor where
  object_index : Nat
  offset : Nat
  pitch : Nat
  deriving DecidableEq

instance : Inhabited AVDRMPlaneDescriptor := ⟨⟨0, 0, 0⟩⟩

/-- One composed layer (`AVDRMLayerDescriptor`): a DRM fourcc format and its
planes (`nb_planes` is the length of `planes`). -/
structure AVDRMLayerDescriptor where
  format : Nat
  planes : List AVDRMPlaneDescriptor
  deriving DecidableEq

instance : Inhabited AVDRMLayerDescriptor := ⟨⟨0, []⟩⟩

/-- A DRM PRIME frame descriptor (`AVDRMFrameDescriptor`): composed layers
(`nb_layers` is the length of `layers`) and the referenced objects. -/
structure AVDRMFrameDescriptor where
  layers : List AVDRMLayerDescriptor
  objects : List AVDRMObjectDescriptor
  deriving DecidableEq

/-- The slice of an `AVFrame` that `drm.cpp` reads: dimensions, the colorspace
and range metadata, and (when the frame is already DRM PRIME) the descriptor
stored in `frame->data[0]`. -/
structure AVFrame where
  width : Nat
  height : Nat
  colorspace : Int
  fullRange : Bool
  descriptor : AVDRMFrameDescriptor
  deriving DecidableEq

/-- Modelled from the spec: the base-renderer helper (outside the supplied
sources) that reports the frame's colorspace as one of the closed set or an
unknown value. -/
def getFrameColorspace (frame : AVFrame) : Int := frame.colorspace

/-- Modelled from the spec: the base-renderer helper (outside the supplied
sources) that reports the frame's full-range flag. -/
def isFrameFullRange (frame : AVFrame) : Bool := frame.fullRange

/-- A device-reported enum-valued property (`drmModePropertyRes`): id, name and
the ordered `(name, value)` enum pairs (`count_enums` is the length). -/
structure drmModePropertyRes where
  prop_id : Nat
  name : String
  enums : List (String × Nat)
  deriving DecidableEq

/-- The mutable state of a `DrmRenderer` instance that the claims concern.
`m_BackendRenderer` abstracts the backend-renderer pointer to its presence. -/
structure DrmRenderer where
  m_BackendRenderer : Bool
  m_DrmFd : Int
  m_ConnectorId : Nat
  m_EncoderId : Nat
  m_CrtcId : Nat
  m_PlaneId : Nat
  m_CurrentFbId : Nat
  m_LastFullRange : Bool
  m_LastColorSpace : Int
  m_ColorEncodingProp : Option drmModePropertyRes
  m_ColorRangeProp : Option drmModePropertyRes
  m_HdrOutputMetadataProp : Option drmModePropertyRes
  m_HdrOutputMetadataBlobId : Nat

/-- Modelled from the spec: the decoder parameters handed to `initialize`
(`PDECODER_PARAMETERS`, declared outside the supplied sources). -/
structure DECODER_PARAMETERS where
  videoFormat : Nat
  width : Nat
  height : Nat
  frameRate : Nat
  deriving DecidableEq

/-- Externally visible kernel / backend calls made by the renderer, recorded in
order as a trace. -/
inductive DrmEvent where
  | mapFrame
  | mapFrameFailed
  | unmapFrame
  | primeFdToHandle (fd : Int) (ok : Bool)
  | addFB (fbId : Nat)
  | addFBFailed
  | rmFB (fbId : Nat)
  | setPlane (fbId : Nat) (ok : Bool)
  | setPlaneProp (propId : Nat) (value : Nat) (ok : Bool)
  | setConnectorProp (propId : Nat) (value : Nat) (ok : Bool)
  | createBlob (blobId : Nat)
  | createBlobFailed
  | destroyBlob (blobId : Nat)
  | warnNoMatchingEnum (propName : String) (desired : String)
  | warnMissingProp (propName : String)
  | warnHdrUnavailable
  deriving DecidableEq

/-- Oracle for the outcomes of kernel and backend calls during one renderer
operation: backend mapping, `drmPrimeFDToHandle`, `drmModeAddFB2WithModifiers`,
`drmModeSetPlane`, `drmModeObjectSetProperty` and
`drmModeCreatePropertyBlob`. -/
structure DrmEnv where
  mapOk : Bool
  mappedFrame : AVDRMFrameDescriptor
  fdToHandle : Int → Option Nat
  addFbResult : Option Nat
  setPlaneOk : Bool
  setPlanePropOk : Bool
  setConnectorPropOk : Bool
  createBlobResult : Option Nat

/-- `DrmRenderer::getDrmColorEncodingValue`: the enum-name string for the
frame's colorspace, or null for colorspaces outside the known set. -/
def getDrmColorEncodingValue (frame : AVFrame) : Option String :=
  if getFrameColorspace frame = COLORSPACE_REC_601 then
    some "ITU-R BT.601 YCbCr"
  else if getFrameColorspace frame = COLORSPACE_REC_709 then
    some "ITU-R BT.709 YCbCr"
  else if getFrameColorspace frame = COLORSPACE_REC_2020 then
    some "ITU-R BT.2020 YCbCr"
  else
    none

/-- `DrmRenderer::getDrmColorRangeValue`: the enum-name string for the frame's
range flag; never null. -/
def getDrmColorRangeValue (frame : AVFrame) : Option String :=
  some (if isFrameFullRange frame then "YCbCr full range" else "YCbCr limited range")

/-- The first enum entry of `p` whose name equals `desired` (the linear scan
over `p->enums` in `renderFrame`), returning its value. -/
def findEnumValue (p : drmModePropertyRes) (desired : String) : Option Nat :=
  (p.enums.find? (fun e => e.1 == desired)).map (fun e => e.2)

/-- The property-write part shared by both color blocks of `renderFrame`:
if the property exists and a desired string was computed, either write the
matching enum value or warn that no enum matched; if only the string exists,
warn that the property is missing; if no string was computed, do nothing. -/
def negotiateProp (propDesc : Option drmModePropertyRes) (desired : Option String)
    (propOk : Bool) (missingName : String) : List DrmEvent :=
  match propDesc, desired with
  | some p, some d =>
    match findEnumValue p d with
    | some v => [DrmEvent.setPlaneProp p.prop_id v propOk]
    | none => [DrmEvent.warnNoMatchingEnum p.name d]
  | none, some _ => [DrmEvent.warnMissingProp missingName]
  | _, none => []

/-- The COLOR_RANGE block of `renderFrame` (lines 318–358): run when the range
or the colorspace changed; unconditionally caches the new range flag at the end
of the block. -/
def applyColorRange (env : DrmEnv) (st : DrmRenderer) (frame : AVFrame) :
    DrmRenderer × List DrmEvent :=
  if isFrameFullRange frame ≠ st.m_LastFullRange ∨
      getFrameColorspace frame ≠ st.m_LastColorSpace then
    ({ st with m_LastFullRange := isFrameFullRange frame },
     negotiateProp st.m_ColorRangeProp (getDrmColorRangeValue frame)
       env.setPlanePropOk "COLOR_RANGE")
  else
    (st, [])

/-- The COLOR_ENCODING block of `renderFrame` (lines 360–400): run only when
the colorspace changed; unconditionally caches the new colorspace at the end of
the block. -/
def applyColorEncoding (env : DrmEnv) (st : DrmRenderer) (frame : AVFrame) :
    DrmRenderer × List DrmEvent :=
  if getFrameColorspace frame ≠ st.m_LastColorSpace then
    ({ st with m_LastColorSpace := getFrameColorspace frame },
     negotiateProp st.m_ColorEncodingProp (getDrmColorEncodingValue frame)
       env.setPlanePropOk "COLOR_ENCODING")
  else
    (st, [])

/-- Both color blocks of `renderFrame`, in source order. -/
def colorNegotiation (env : DrmEnv) (st : DrmRenderer) (frame : AVFrame) :
    DrmRenderer × List DrmEvent :=
  let r1 := applyColorRange env st frame
  let r2 := applyColorEncoding env r1.1 frame
  (r2.1, r1.2 ++ r2.2)

/-- Per-plane result of the handle-resolution loop of `renderFrame` (lines
263–286): the accumulated handles, pitches, offsets, modifiers, and whether
`DRM_MODE_FB_MODIFIERS` was set in `flags`. -/
structure PlaneResolution where
  handles : List Nat
  pitches : List Nat
  offsets : List Nat
  modifiers : List Nat
  withModifiers : Bool

/-- The `drmPrimeFDToHandle` loop of `renderFrame`: resolve each plane's object
fd to a handle, stopping at the first failure (`none`). -/
def resolvePlanes (env : DrmEnv) (objects : List AVDRMObjectDescriptor) :
    List AVDRMPlaneDescriptor → List DrmEvent × Option PlaneResolution
  | [] => ([], some ⟨[], [], [], [], false⟩)
  | p :: rest =>
    let object := objects.getD p.object_index default
    match env.fdToHandle object.fd with
    | none => ([DrmEvent.primeFdToHandle object.fd false], none)
    | some h =>
      let r := resolvePlanes env objects rest
      (DrmEvent.primeFdToHandle object.fd true :: r.1,
       r.2.map (fun acc =>
         ⟨h :: acc.handles, p.pitch :: acc.pitches, p.offset :: acc.offsets,
          object.format_modifier :: acc.modifiers,
          (object.format_modifier != DRM_FORMAT_MOD_INVALID) || acc.withModifiers⟩))

/-- The body of `DrmRenderer::renderFrame` after the backend-mapping step,
operating on the effective DRM descriptor `drmFrame` with the events of the
mapping step already in `evs0`. -/
def renderFrameWith (env : DrmEnv) (st : DrmRenderer) (frame : AVFrame)
    (drmFrame : AVDRMFrameDescriptor) (evs0 : List DrmEvent) :
    DrmRenderer × List DrmEvent :=
  let layer := drmFrame.layers.getD 0 default
  let unmapEvs : List DrmEvent :=
    if st.m_BackendRenderer then [DrmEvent.unmapFrame] else []
  match resolvePlanes env drmFrame.objects layer.planes with
  | (evs1, none) =>
    -- a drmPrimeFDToHandle failure: unmap (if mapped) and abort the frame
    (st, evs0 ++ evs1 ++ unmapEvs)
  | (evs1, some _) =>
    -- remember the last FB so it can be freed after a successful commit
    let lastFbId := st.m_CurrentFbId
    match env.addFbResult with
    | none =>
      -- drmModeAddFB2WithModifiers failed: restore m_CurrentFbId and abort
      (st, evs0 ++ evs1 ++ [DrmEvent.addFBFailed] ++ unmapEvs)
    | some newFb =>
      let st1 := { st with m_CurrentFbId := newFb }
      let r := colorNegotiation env st1 frame
      if env.setPlaneOk then
        -- successful drmModeSetPlane: free the superseded FB afterwards
        (r.1, evs0 ++ evs1 ++ [DrmEvent.addFB newFb] ++ unmapEvs ++ r.2 ++
          [DrmEvent.setPlane newFb true, DrmEvent.rmFB lastFbId])
      else
        -- drmModeSetPlane failed: destroy the new FB and restore the old id
        ({ r.1 with m_CurrentFbId := lastFbId },
         evs0 ++ evs1 ++ [DrmEvent.addFB newFb] ++ unmapEvs ++ r.2 ++
          [DrmEvent.setPlane newFb false, DrmEvent.rmFB newFb])

/-- `DrmRenderer::renderFrame` (lines 223–420): backend mapping (when acting as
a frontend), handle resolution, framebuffer creation, color property
negotiation, plane commit and framebuffer rollover, returning the new renderer
state plus the trace of external calls. -/
def renderFrame (env : DrmEnv) (st : DrmRenderer) (frame : AVFrame) :
    DrmRenderer × List DrmEvent :=
  if st.m_BackendRenderer then
    if env.mapOk then
      renderFrameWith env st frame env.mappedFrame [DrmEvent.mapFrame]
    else
      (st, [DrmEvent.mapFrameFailed])
  else
    renderFrameWith env st frame frame.descriptor []

/-- `DrmRenderer::testRenderFrame` (lines 427–446): with a backend renderer,
probe that mapping works and immediately unmap; without one, trivially
succeed. -/
def testRenderFrame (env : DrmEnv) (st : DrmRenderer) (_frame : AVFrame) :
    Bool × List DrmEvent :=
  if st.m_BackendRenderer then
    if env.mapOk then
      (true, [DrmEvent.mapFrame, DrmEvent.unmapFrame])
    else
      (false, [DrmEvent.mapFrameFailed])
  else
    (true, [])

/-- `DrmRenderer::setHdrMode` (lines 161–221): with the HDR metadata property
present, destroy any existing blob, create a replacement when enabling, then
apply the blob id (or 0 when disabling) to the connector; without the property,
enabling only warns and disabling does nothing. -/
def setHdrMode (env : DrmEnv) (st : DrmRenderer) (enabled : Bool) :
    DrmRenderer × List DrmEvent :=
  match st.m_HdrOutputMetadataProp with
  | some p =>
    -- destroy an existing blob first (lines 164–167)
    let destroyEvs : List DrmEvent :=
      if st.m_HdrOutputMetadataBlobId ≠ 0 then
        [DrmEvent.destroyBlob st.m_HdrOutputMetadataBlobId]
      else
        []
    let st1 : DrmRenderer := { st with m_HdrOutputMetadataBlobId := 0 }
    -- when enabling, build the metadata structure and create the blob
    let r2 : DrmRenderer × List DrmEvent :=
      if enabled then
        match env.createBlobResult with
        | some blobId =>
          ({ st1 with m_HdrOutputMetadataBlobId := blobId },
           [DrmEvent.createBlob blobId])
        | none =>
          -- drmModeCreatePropertyBlob failed: non-fatal, blob id stays 0
          ({ st1 with m_HdrOutputMetadataBlobId := 0 },
           [DrmEvent.createBlobFailed])
      else
        (st1, [])
    -- apply the blob id (or 0 when disabling) to the connector property
    (r2.1, destroyEvs ++ r2.2 ++
      [DrmEvent.setConnectorProp p.prop_id
        (if enabled then r2.1.m_HdrOutputMetadataBlobId else 0)
        env.setConnectorPropOk])
  | none =>
    if enabled then
      (st, [DrmEvent.warnHdrUnavailable])
    else
      (st, [])

/-- `DrmRenderer::initialize` (lines 117–121): the body is a bare
`return false;` — no device, connector, encoder, CRTC or plane binding and no
property enumeration happens, and the state is untouched. -/
def initRenderer (st : DrmRenderer) (_params : DECODER_PARAMETERS) :
    Bool × DrmRenderer :=
  (false, st)

/-! EGL attribute constants used by `exportEGLImages`, with their values from
`EGL_EXT_image_dma_buf_import` and `EGL_EXT_image_dma_buf_import_modifiers`. -/

def EGL_NONE : Int := 0x3038
def EGL_HEIGHT : Int := 0x3056
def EGL_WIDTH : Int := 0x3057
def EGL_LINUX_DRM_FOURCC_EXT : Int := 0x3271
def EGL_DMA_BUF_PLANE0_FD_EXT : Int := 0x3272
def EGL_DMA_BUF_PLANE0_OFFSET_EXT : Int := 0x3273
def EGL_DMA_BUF_PLANE0_PITCH_EXT : Int := 0x3274
def EGL_DMA_BUF_PLANE1_FD_EXT : Int := 0x3275
def EGL_DMA_BUF_PLANE1_OFFSET_EXT : Int := 0x3276
def EGL_DMA_BUF_PLANE1_PITCH_EXT : Int := 0x3277
def EGL_DMA_BUF_PLANE2_FD_EXT : Int := 0x3278
def EGL_DMA_BUF_PLANE2_OFFSET_EXT : Int := 0x3279
def EGL_DMA_BUF_PLANE2_PITCH_EXT : Int := 0x327A
def EGL_YUV_COLOR_SPACE_HINT_EXT : Int := 0x327B
def EGL_SAMPLE_RANGE_HINT_EXT : Int := 0x327C
def EGL_ITU_REC601_EXT : Int := 0x327F
def EGL_ITU_REC709_EXT : Int := 0x3280
def EGL_ITU_REC2020_EXT : Int := 0x3281
def EGL_YUV_FULL_RANGE_EXT : Int := 0x3282
def EGL_YUV_NARROW_RANGE_EXT : Int := 0x3283
def EGL_DMA_BUF_PLANE3_FD_EXT : Int := 0x3440
def EGL_DMA_BUF_PLANE3_OFFSET_EXT : Int := 0x3441
def EGL_DMA_BUF_PLANE3_PITCH_EXT : Int := 0x3442
def EGL_DMA_BUF_PLANE0_MODIFIER_LO_EXT : Int := 0x3443
def EGL_DMA_BUF_PLANE0_MODIFIER_HI_EXT : Int := 0x3444
def EGL_DMA_BUF_PLANE1_MODIFIER_LO_EXT : Int := 0x3445
def EGL_DMA_BUF_PLANE1_MODIFIER_HI_EXT : Int := 0x3446
def EGL_DMA_BUF_PLANE2_MODIFIER_LO_EXT : Int := 0x3447
def EGL_DMA_BUF_PLANE2_MODIFIER_HI_EXT : Int := 0x3448
def EGL_DMA_BUF_PLANE3_MODIFIER_LO_EXT : Int := 0x3449
def EGL_DMA_BUF_PLANE3_MODIFIER_HI_EXT : Int := 0x344A

/-- The `(EGLint)` cast applied to the two modifier words in
`exportEGLImages`: truncation to 32 bits interpreted as a signed value. -/
def toEGLint (n : Nat) : Int :=
  if n % 2 ^ 32 < 2 ^ 31 then
    ((n % 2 ^ 32 : Nat) : Int)
  else
    ((n % 2 ^ 32 : Nat) : Int) - 2 ^ 32

/-- The attributes contributed by plane `i` in the `switch (i)` of
`exportEGLImages` (lines 549–612): the fd/offset/pitch triple, plus the
modifier pair when the modifier extension is available and the object declares
a valid modifier.  Indices past 3 are unreachable (`Q_UNREACHABLE`). -/
def exportPlaneAttribs (m_EGLExtDmaBuf : Bool) (i : Nat)
    (plane : AVDRMPlaneDescriptor) (object : AVDRMObjectDescriptor) :
    List Int :=
  let withMod := m_EGLExtDmaBuf && (object.format_modifier != DRM_FORMAT_MOD_INVALID)
  let lo := toEGLint (object.format_modifier % 2 ^ 32)
  let hi := toEGLint (object.format_modifier / 2 ^ 32)
  match i with
  | 0 =>
    [EGL_DMA_BUF_PLANE0_FD_EXT, object.fd,
     EGL_DMA_BUF_PLANE0_OFFSET_EXT, (plane.offset : Int),
     EGL_DMA_BUF_PLANE0_PITCH_EXT, (plane.pitch : Int)] ++
    (if withMod then
      [EGL_DMA_BUF_PLANE0_MODIFIER_LO_EXT, lo,
       EGL_DMA_BUF_PLANE0_MODIFIER_HI_EXT, hi]
     else [])
  | 1 =>
    [EGL_DMA_BUF_PLANE1_FD_EXT, object.fd,
     EGL_DMA_BUF_PLANE1_OFFSET_EXT, (plane.offset : Int),
     EGL_DMA_BUF_PLANE1_PITCH_EXT, (plane.pitch : Int)] ++
    (if withMod then
      [EGL_DMA_BUF_PLANE1_MODIFIER_LO_EXT, lo,
       EGL_DMA_BUF_PLANE1_MODIFIER_HI_EXT, hi]
     else [])
  | 2 =>
    [EGL_DMA_BUF_PLANE2_FD_EXT, object.fd,
     EGL_DMA_BUF_PLANE2_OFFSET_EXT, (plane.offset : Int),
     EGL_DMA_BUF_PLANE2_PITCH_EXT, (plane.pitch : Int)] ++
    (if withMod then
      [EGL_DMA_BUF_PLANE2_MODIFIER_LO_EXT, lo,
       EGL_DMA_BUF_PLANE2_MODIFIER_HI_EXT, hi]
     else [])
  | 3 =>
    [EGL_DMA_BUF_PLANE3_FD_EXT, object.fd,
     EGL_DMA_BUF_PLANE3_OFFSET_EXT, (plane.offset : Int),
     EGL_DMA_BUF_PLANE3_PITCH_EXT, (plane.pitch : Int)] ++
    (if withMod then
      [EGL_DMA_BUF_PLANE3_MODIFIER_LO_EXT, lo,
       EGL_DMA_BUF_PLANE3_MODIFIER_HI_EXT, hi]
     else [])
  | _ => []

/-- The per-plane loop of `exportEGLImages` (lines 545–613), walking the planes
of the single composed layer with their index. -/
def exportPlanesAttribs (m_EGLExtDmaBuf : Bool)
    (objects : List AVDRMObjectDescriptor) :
    Nat → List AVDRMPlaneDescriptor → List Int
  | _, [] => []
  | i, p :: rest =>
    exportPlaneAttribs m_EGLExtDmaBuf i p (objects.getD p.object_index default) ++
    exportPlanesAttribs m_EGLExtDmaBuf objects (i + 1) rest

/-- The colorspace hint appended by `exportEGLImages` (lines 616–629); the
switch has no default case, so unknown colorspaces append nothing. -/
def exportColorspaceHint (frame : AVFrame) : List Int :=
  if getFrameColorspace frame = COLORSPACE_REC_601 then
    [EGL_YUV_COLOR_SPACE_HINT_EXT, EGL_ITU_REC601_EXT]
  else if getFrameColorspace frame = COLORSPACE_REC_709 then
    [EGL_YUV_COLOR_SPACE_HINT_EXT, EGL_ITU_REC709_EXT]
  else if getFrameColorspace frame = COLORSPACE_REC_2020 then
    [EGL_YUV_COLOR_SPACE_HINT_EXT, EGL_ITU_REC2020_EXT]
  else
    []

/-- The complete attribute list built by `DrmRenderer::exportEGLImages`
(lines 536–637): format / width / height header, per-plane attributes,
colorspace hint, range hint, and the `EGL_NONE` terminator. -/
def buildEGLAttribs (m_EGLExtDmaBuf : Bool) (frame : AVFrame) : List Int :=
  let drmFrame := frame.descriptor
  let layer := drmFrame.layers.getD 0 default
  [EGL_LINUX_DRM_FOURCC_EXT, (layer.format : Int),
   EGL_WIDTH, (frame.width : Int),
   EGL_HEIGHT, (frame.height : Int)] ++
  exportPlanesAttribs m_EGLExtDmaBuf drmFrame.objects 0 layer.planes ++
  exportColorspaceHint frame ++
  [EGL_SAMPLE_RANGE_HINT_EXT,
   if isFrameFullRange frame then EGL_YUV_FULL_RANGE_EXT else EGL_YUV_NARROW_RANGE_EXT] ++
  [EGL_NONE]

/-! ### Helper lemmas -/

/-- The DRM descriptor `renderFrame` effectively operates on: the backend's
mapped descriptor when acting as a frontend, otherwise the frame's own. -/
def effDesc (env : DrmEnv) (st : DrmRenderer) (frame : AVFrame) :
    AVDRMFrameDescriptor :=
  if st.m_BackendRenderer then env.mappedFrame else frame.descriptor

/-- The single composed layer of the effective descriptor. -/
def effLayer (env : DrmEnv) (st : DrmRenderer) (frame : AVFrame) :
    AVDRMLayerDescriptor :=
  (effDesc env st frame).layers.getD 0 default

/-- Events of the mapping step of `renderFrame` on its successful path. -/
def mapEvs (st : DrmRenderer) : List DrmEvent :=
  if st.m_BackendRenderer then [DrmEvent.mapFrame] else []

/-- Events of the unmapping step of `renderFrame`. -/
def unmapEvsOf (st : DrmRenderer) : List DrmEvent :=
  if st.m_BackendRenderer then [DrmEvent.unmapFrame] else []

/-- A render call reaches the framebuffer-creation call: backend mapping (if
any) succeeds and every plane's object fd resolves to a handle. -/
def reachesAddFB (env : DrmEnv) (st : DrmRenderer) (frame : AVFrame) : Prop :=
  (st.m_BackendRenderer = true → env.mapOk = true) ∧
  (∀ p ∈ (effLayer env st frame).planes,
    (env.fdToHandle ((effDesc env st frame).objects.getD p.object_index default).fd).isSome)

/-- The set (as a list) of live metadata blobs after a trace, starting from the
given live list: `createBlob` adds a blob, `destroyBlob` removes it. -/
def liveBlobsAux : List Nat → List DrmEvent → List Nat
  | acc, [] => acc
  | acc, DrmEvent.createBlob blobId :: rest => liveBlobsAux (blobId :: acc) rest
  | acc, DrmEvent.destroyBlob blobId :: rest => liveBlobsAux (acc.erase blobId) rest
  | acc, _ :: rest => liveBlobsAux acc rest

/-- Live metadata blobs after a trace, starting from none. -/
def liveBlobs (tr : List DrmEvent) : List Nat := liveBlobsAux [] tr

/-- The blob reference held by the renderer state (blob id 0 means none). -/
def blobList (st : DrmRenderer) : List Nat :=
  if st.m_HdrOutputMetadataBlobId = 0 then [] else [st.m_HdrOutputMetadataBlobId]

/-- A sequence of `setHdrMode` calls, concatenating their traces. -/
def runHdrCalls : List (DrmEnv × Bool) → DrmRenderer → DrmRenderer × List DrmEvent
  | [], st => (st, [])
  | c :: rest, st =>
    let r1 := setHdrMode c.1 st c.2
    let r2 := runHdrCalls rest r1.1
    (r2.1, r1.2 ++ r2.2)

def stC9 : DrmRenderer :=
  ⟨false, -1, 0, 0, 0, 0, 0, false, -1, none, none, none, 0⟩

def envC9 : DrmEnv :=
  ⟨true, ⟨[], []⟩, fun _ => none, none, true, true, true, none⟩

def frameC10 : AVFrame := ⟨64, 64, 5, false, ⟨[], []⟩⟩

def pC4 : drmModePropertyRes := ⟨10, "HDR_OUTPUT_METADATA", []⟩

def stC4 : DrmRenderer :=
  ⟨false, 3, 1, 2, 4, 9, 0, false, -1, none, none, some pC4, 42⟩

def stC4z : DrmRenderer :=
  ⟨false, 3, 1, 2, 4, 9, 0, false, -1, none, none, some pC4, 0⟩

def envC4 : DrmEnv :=
  ⟨true, ⟨[], []⟩, fun _ => none, none, true, true, true, some 7⟩

/-- Whether an event is the backend `unmapDrmPrimeFrame` call. -/
def isUnmap (e : DrmEvent) : Bool :=
  match e with
  | DrmEvent.unmapFrame => true
  | _ => false

/-- Number of backend unmap calls in a trace. -/
def unmapCount (tr : List DrmEvent) : Nat := tr.countP isUnmap

def stC8 : DrmRenderer :=
  ⟨true, 3, 1, 2, 4, 9, 0, false, -1, none, none, none, 0⟩

def envC8 : DrmEnv :=
  ⟨true, ⟨[⟨875713870, [⟨0, 0, 256⟩]⟩], [⟨5, 0⟩]⟩, fun _ => none, none,
   true, true, true, none⟩

def stC1 : DrmRenderer :=
  ⟨false, 3, 1, 2, 4, 9, 33, false, -1, none, none, none, 0⟩

def frameC1 : AVFrame :=
  ⟨64, 64, 1, false, ⟨[⟨842094158, [⟨0, 0, 64⟩, ⟨0, 4096, 64⟩]⟩], [⟨5, 0⟩]⟩⟩

def envC1 : DrmEnv :=
  ⟨false, ⟨[], []⟩, fun _ => some 11, some 77, true, true, true, none⟩

def stC2 : DrmRenderer :=
  ⟨false, 3, 1, 2, 4, 9, 33, false, -1, none, none, none, 0⟩

def frameC2 : AVFrame :=
  ⟨64, 64, 1, false, ⟨[⟨842094158, [⟨0, 0, 64⟩, ⟨0, 4096, 64⟩]⟩], [⟨5, 0⟩]⟩⟩

def envC2 : DrmEnv :=
  ⟨false, ⟨[], []⟩, fun _ => some 11, none, false, true, true, none⟩

def envC2b : DrmEnv :=
  ⟨false, ⟨[], []⟩, fun _ => some 11, some 77, false, true, true, none⟩

/-- Whether an event is a plane-property write (`drmModeObjectSetProperty` on
the plane). -/
def isPlanePropWrite (e : DrmEvent) : Bool :=
  match e with
  | DrmEvent.setPlaneProp _ _ _ => true
  | _ => false

def stC6 : DrmRenderer :=
  ⟨false, 3, 1, 2, 4, 9, 33, false, 0, none, none, none, 0⟩

def frameC6 : AVFrame :=
  ⟨64, 64, 1, true, ⟨[⟨842094158, [⟨0, 0, 64⟩]⟩], [⟨5, 0⟩]⟩⟩

def envC6 : DrmEnv :=
  ⟨false, ⟨[], []⟩, fun _ => some 11, some 7, true, true, true, none⟩

def stC6w : DrmRenderer :=
  ⟨false, 3, 1, 2, 4, 9, 33, false, 0, none, none, none, 0⟩

def frameC6w : AVFrame :=
  ⟨64, 64, 1, true, ⟨[⟨842094158, [⟨0, 0, 64⟩]⟩], [⟨5, 0⟩]⟩⟩

def envC6w : DrmEnv :=
  ⟨false, ⟨[], []⟩, fun _ => some 11, some 7, true, true, true, none⟩

def envC6n : DrmEnv :=
  ⟨false, ⟨[], []⟩, fun _ => some 11, none, true, true, true, none⟩

def rpC3 : drmModePropertyRes :=
  ⟨21, "COLOR_RANGE", [("YCbCr limited range", 0), ("YCbCr full range", 1)]⟩

def epC3 : drmModePropertyRes :=
  ⟨22, "COLOR_ENCODING",
   [("ITU-R BT.601 YCbCr", 0), ("ITU-R BT.709 YCbCr", 1),
    ("ITU-R BT.2020 YCbCr", 2)]⟩

def st0C3 : DrmRenderer :=
  ⟨false, 3, 1, 2, 4, 9, 0, false, -1, some epC3, some rpC3, none, 0⟩

def f1C3 : AVFrame :=
  ⟨64, 64, 1, false, ⟨[⟨842094158, [⟨0, 0, 64⟩]⟩], [⟨5, 0⟩]⟩⟩

def f2C3 : AVFrame :=
  ⟨64, 64, 2, false, ⟨[⟨842094158, [⟨0, 0, 64⟩]⟩], [⟨5, 0⟩]⟩⟩

def env1C3 : DrmEnv :=
  ⟨false, ⟨[], []⟩, fun _ => some 11, some 7, true, true, true, none⟩

def env2C3 : DrmEnv :=
  ⟨false, ⟨[], []⟩, fun _ => some 11, some 8, true, true, true, none⟩

def fC7 : AVFrame :=
  ⟨1920, 1080, 1, false,
   ⟨[⟨842094158, [⟨0, 0, 1920⟩, ⟨0, 2073600, 1920⟩]⟩],
    [⟨5, 72057594037927937⟩]⟩⟩

/-- Every event emitted by the handle-resolution loop is a
`primeFdToHandle` event. -/
theorem resolvePlanes_events (env : DrmEnv) (objects : List AVDRMObjectDescriptor) :
    ∀ planes, ∀ e ∈ (resolvePlanes env objects planes).1,
      ∃ fd ok, e = DrmEvent.primeFdToHandle fd ok := by
  intro planes
  induction planes with
  | nil => intro e he; simp [resolvePlanes] at he
  | cons p rest ih =>
    intro e he
    simp only [resolvePlanes] at he
    rcases hfd : env.fdToHandle ((objects.getD p.object_index default).fd) with _ | h
    · rw [hfd] at he
      simp at he
      exact ⟨_, _, he⟩
    · rw [hfd] at he
      simp at he
      rcases he with he | he
      · exact ⟨_, _, he⟩
      · exact ih e he

/-- When every plane's object fd resolves, the loop succeeds and every emitted
event is a successful `primeFdToHandle`. -/
theorem resolvePlanes_sound (env : DrmEnv) (objects : List AVDRMObjectDescriptor) :
    ∀ planes,
      (∀ p ∈ planes, (env.fdToHandle (objects.getD p.object_index default).fd).isSome) →
      ∃ evs res, resolvePlanes env objects planes = (evs, some res) ∧
        ∀ e ∈ evs, ∃ fd, e = DrmEvent.primeFdToHandle fd true := by
  intro planes
  induction planes with
  | nil =>
    intro _
    exact ⟨[], ⟨[], [], [], [], false⟩, rfl, by intro e he; simp at he⟩
  | cons p rest ih =>
    intro h
    have hp := h p (by simp)
    rcases hfd : env.fdToHandle ((objects.getD p.object_index default).fd) with _ | hdl
    · rw [hfd] at hp; simp at hp
    · obtain ⟨evs, res, heq, hev⟩ := ih (fun q hq => h q (by simp [hq]))
      refine ⟨DrmEvent.primeFdToHandle (objects.getD p.object_index default).fd true :: evs,
        ⟨hdl :: res.handles, p.pitch :: res.pitches, p.offset :: res.offsets,
         (objects.getD p.object_index default).format_modifier :: res.modifiers,
         ((objects.getD p.object_index default).format_modifier != DRM_FORMAT_MOD_INVALID)
           || res.withModifiers⟩, ?_, ?_⟩
      · simp only [resolvePlanes, hfd, heq, Option.map_some']
      · intro e he
        simp at he
        rcases he with he | he
        · exact ⟨_, he⟩
        · exact hev e he

/-- `negotiateProp` never emits an unmap, rmFB, setPlane or blob event: its
events are plane-property writes or warnings. -/
theorem negotiateProp_events (propDesc : Option drmModePropertyRes)
    (desired : Option String) (propOk : Bool) (missingName : String) :
    ∀ e ∈ negotiateProp propDesc desired propOk missingName,
      (∃ p v ok, e = DrmEvent.setPlaneProp p v ok) ∨
      (∃ n d, e = DrmEvent.warnNoMatchingEnum n d) ∨
      (∃ n, e = DrmEvent.warnMissingProp n) := by
  intro e he
  rcases propDesc with _ | p <;> rcases desired with _ | d <;>
    simp [negotiateProp] at he
  · exact Or.inr (Or.inr ⟨_, he⟩)
  · rcases hf : findEnumValue p d with _ | v <;> rw [hf] at he <;> simp at he
    · exact Or.inr (Or.inl ⟨_, _, he⟩)
    · exact Or.inl ⟨_, _, _, he⟩

/-- The state after the two color blocks: the cache holds exactly the frame's
range flag and colorspace, and no other field changes. -/
theorem colorNegotiation_fst (env : DrmEnv) (st : DrmRenderer) (frame : AVFrame) :
    (colorNegotiation env st frame).1 =
      { st with m_LastFullRange := isFrameFullRange frame,
                m_LastColorSpace := getFrameColorspace frame } := by
  unfold colorNegotiation applyColorRange applyColorEncoding
  by_cases h1 : isFrameFullRange frame ≠ st.m_LastFullRange ∨
      getFrameColorspace frame ≠ st.m_LastColorSpace
  · by_cases h2 : getFrameColorspace frame ≠ st.m_LastColorSpace
    · simp [h1, h2]
    · push_neg at h2
      rcases h1 with h1 | h1
      · simp [h1, h2]
      · exact absurd h2 h1
  · push_neg at h1
    obtain ⟨e1, e2⟩ := h1
    simp [e1, e2]

/-- Every event of the two color blocks is a plane-property write or a
warning. -/
theorem colorNegotiation_events (env : DrmEnv) (st : DrmRenderer) (frame : AVFrame) :
    ∀ e ∈ (colorNegotiation env st frame).2,
      (∃ p v ok, e = DrmEvent.setPlaneProp p v ok) ∨
      (∃ n d, e = DrmEvent.warnNoMatchingEnum n d) ∨
      (∃ n, e = DrmEvent.warnMissingProp n) := by
  intro e he
  unfold colorNegotiation at he
  simp only [List.mem_append] at he
  rcases he with he | he
  · unfold applyColorRange at he
    split at he
    · exact negotiateProp_events _ _ _ _ e he
    · simp at he
  · unfold applyColorEncoding at he
    split at he
    · exact negotiateProp_events _ _ _ _ e he
    · simp at he

/-- Shape of a `renderFrame` call that reaches a successful framebuffer
creation: the full trace and resulting state, for both commit outcomes. -/
theorem renderFrame_shape (env : DrmEnv) (st : DrmRenderer) (frame : AVFrame)
    (h : reachesAddFB env st frame) (newFb : Nat)
    (hadd : env.addFbResult = some newFb) :
    ∃ evs1, (∀ e ∈ evs1, ∃ fd, e = DrmEvent.primeFdToHandle fd true) ∧
      renderFrame env st frame =
        (if env.setPlaneOk then
          ((colorNegotiation env { st with m_CurrentFbId := newFb } frame).1,
           mapEvs st ++ evs1 ++ [DrmEvent.addFB newFb] ++ unmapEvsOf st ++
            (colorNegotiation env { st with m_CurrentFbId := newFb } frame).2 ++
            [DrmEvent.setPlane newFb true, DrmEvent.rmFB st.m_CurrentFbId])
         else
          ({ (colorNegotiation env { st with m_CurrentFbId := newFb } frame).1 with
              m_CurrentFbId := st.m_CurrentFbId },
           mapEvs st ++ evs1 ++ [DrmEvent.addFB newFb] ++ unmapEvsOf st ++
            (colorNegotiation env { st with m_CurrentFbId := newFb } frame).2 ++
            [DrmEvent.setPlane newFb false, DrmEvent.rmFB newFb])) := by
  obtain ⟨evs1, res, heq, hev⟩ :=
    resolvePlanes_sound env (effDesc env st frame).objects
      (effLayer env st frame).planes h.2
  refine ⟨evs1, hev, ?_⟩
  rcases hB : st.m_BackendRenderer with _ | _
  · simp only [effDesc, effLayer, hB, if_neg, Bool.false_eq_true, not_false_iff,
      if_false] at heq
    simp only [renderFrame, hB, Bool.false_eq_true, if_false,
      renderFrameWith, heq, hadd, mapEvs, unmapEvsOf]
  · have hm := h.1 hB
    simp only [effDesc, effLayer, hB, if_true] at heq
    simp only [renderFrame, hB, hm, if_true,
      renderFrameWith, heq, hadd, mapEvs, unmapEvsOf]

/-- Shape of a `renderFrame` call on which `drmModeAddFB2WithModifiers`
fails: the state is untouched and only resolution / failure / unmap events are
emitted. -/
theorem renderFrame_addFB_failed (env : DrmEnv) (st : DrmRenderer) (frame : AVFrame)
    (h : reachesAddFB env st frame) (hadd : env.addFbResult = none) :
    ∃ evs1, (∀ e ∈ evs1, ∃ fd, e = DrmEvent.primeFdToHandle fd true) ∧
      renderFrame env st frame =
        (st, mapEvs st ++ evs1 ++ [DrmEvent.addFBFailed] ++ unmapEvsOf st) := by
  obtain ⟨evs1, res, heq, hev⟩ :=
    resolvePlanes_sound env (effDesc env st frame).objects
      (effLayer env st frame).planes h.2
  refine ⟨evs1, hev, ?_⟩
  rcases hB : st.m_BackendRenderer with _ | _
  · simp only [effDesc, effLayer, hB, if_neg, Bool.false_eq_true, not_false_iff,
      if_false] at heq
    simp only [renderFrame, hB, Bool.false_eq_true, if_false,
      renderFrameWith, heq, hadd, mapEvs, unmapEvsOf]
  · have hm := h.1 hB
    simp only [effDesc, effLayer, hB, if_true] at heq
    simp only [renderFrame, hB, hm, if_true,
      renderFrameWith, heq, hadd, mapEvs, unmapEvsOf]

/-- Whenever framebuffer creation fails (or is never reached), the renderer
state is completely unchanged. -/
theorem renderFrame_fst_of_addFB_failed (env : DrmEnv) (st : DrmRenderer)
    (frame : AVFrame) (hadd : env.addFbResult = none) :
    (renderFrame env st frame).1 = st := by
  unfold renderFrame renderFrameWith
  rcases hB : st.m_BackendRenderer with _ | _ <;>
    rcases hm : env.mapOk with _ | _ <;>
      simp only [Bool.false_eq_true, if_false, if_true] <;>
      first
      | rfl
      | (rcases hr : resolvePlanes env _ _ with ⟨evs1, _ | res⟩ <;> simp [hr, hadd])

/-! ### Blob liveness accounting for the HDR metadata manager -/

theorem liveBlobsAux_append (a b : List DrmEvent) :
    ∀ acc, liveBlobsAux acc (a ++ b) = liveBlobsAux (liveBlobsAux acc a) b := by
  induction a with
  | nil => intro acc; rfl
  | cons e rest ih => intro acc; cases e <;> simp [liveBlobsAux, ih]

/-- One `setHdrMode` call preserves the correspondence between the live-blob
set of its trace and the single blob reference held in the state (assuming the
kernel never hands out blob id 0). -/
theorem setHdrMode_live_step (env : DrmEnv) (st : DrmRenderer) (b : Bool)
    (h0 : env.createBlobResult ≠ some 0) :
    liveBlobsAux (blobList st) (setHdrMode env st b).2 =
      blobList (setHdrMode env st b).1 := by
  rcases hp : st.m_HdrOutputMetadataProp with _ | p
  · cases b <;> simp [setHdrMode, hp, liveBlobsAux]
  · by_cases hb : st.m_HdrOutputMetadataBlobId = 0
    · cases b
      · simp [setHdrMode, hp, hb, blobList, liveBlobsAux]
      · rcases hc : env.createBlobResult with _ | blobId
        · simp [setHdrMode, hp, hb, hc, blobList, liveBlobsAux]
        · have hid : blobId ≠ 0 := by rintro rfl; exact h0 hc
          simp [setHdrMode, hp, hb, hc, blobList, liveBlobsAux, hid]
    · cases b
      · simp [setHdrMode, hp, hb, blobList, liveBlobsAux]
      · rcases hc : env.createBlobResult with _ | blobId
        · simp [setHdrMode, hp, hb, hc, blobList, liveBlobsAux]
        · have hid : blobId ≠ 0 := by rintro rfl; exact h0 hc
          simp [setHdrMode, hp, hb, hc, blobList, liveBlobsAux, hid]

/-- The correspondence of `setHdrMode_live_step`, folded over a whole call
sequence. -/
theorem runHdrCalls_live (calls : List (DrmEnv × Bool)) :
    ∀ st : DrmRenderer, (∀ c ∈ calls, c.1.createBlobResult ≠ some 0) →
      liveBlobsAux (blobList st) (runHdrCalls calls st).2 =
        blobList (runHdrCalls calls st).1 := by
  induction calls with
  | nil => intro st _; rfl
  | cons c rest ih =>
    intro st h
    simp only [runHdrCalls]
    rw [liveBlobsAux_append, setHdrMode_live_step c.1 st c.2 (h c (by simp))]
    exact ih _ (fun d hd => h d (by simp [hd]))

/-! ### Claim theorems -/

/-- C5: the claim says `initialize` binds the device handle and the
connector/encoder/CRTC/plane identifiers and enumerates the optional color/HDR
properties, succeeding or reporting the path unavailable.  The code's body is a
bare `return false;`: every call reports the path unavailable, performs no
binding and no enumeration, and returns the state untouched. -/
theorem initRenderer_always_unavailable :
    ∀ (st : DrmRenderer) (params : DECODER_PARAMETERS),
      initRenderer st params = (false, st) :=
  fun _ _ => rfl

/-- C9: without the HDR metadata property, `setHdrMode true` emits only the
warning (no property write, no blob creation) and leaves the state unchanged,
and `setHdrMode false` is a complete no-op. -/
theorem setHdrMode_unsupported (env : DrmEnv) (st : DrmRenderer)
    (h : st.m_HdrOutputMetadataProp = none) :
    setHdrMode env st true = (st, [DrmEvent.warnHdrUnavailable]) ∧
    setHdrMode env st false = (st, []) := by
  constructor <;> simp [setHdrMode, h]

theorem setHdrMode_unsupported_witness :
    setHdrMode envC9 stC9 true = (stC9, [DrmEvent.warnHdrUnavailable]) ∧
    setHdrMode envC9 stC9 false = (stC9, []) :=
  setHdrMode_unsupported envC9 stC9 rfl

/-- C10: the computed color-range string is never null and is exactly
"YCbCr full range" for full-range frames and "YCbCr limited range" otherwise,
independent of the frame's colorspace — in contrast to the color-encoding
string, which is null for every colorspace outside the known set. -/
theorem getDrmColorRangeValue_never_null (frame : AVFrame) :
    getDrmColorRangeValue frame =
      some (if isFrameFullRange frame then "YCbCr full range"
            else "YCbCr limited range") ∧
    (getDrmColorRangeValue frame).isSome = true ∧
    (getFrameColorspace frame ≠ COLORSPACE_REC_601 →
     getFrameColorspace frame ≠ COLORSPACE_REC_709 →
     getFrameColorspace frame ≠ COLORSPACE_REC_2020 →
     getDrmColorEncodingValue frame = none) := by
  refine ⟨rfl, rfl, ?_⟩
  intro h1 h2 h3
  simp [getDrmColorEncodingValue, h1, h2, h3]

theorem getDrmColorRangeValue_never_null_witness :
    getDrmColorRangeValue frameC10 =
      some (if isFrameFullRange frameC10 then "YCbCr full range"
            else "YCbCr limited range") ∧
    getDrmColorEncodingValue frameC10 = none := by
  have h := getDrmColorRangeValue_never_null frameC10
  exact ⟨h.1, h.2.2 (by decide) (by decide) (by decide)⟩

/-- C4: with the HDR metadata property supported, an existing blob is always
destroyed first (its destruction is the first event of the call, before any
blob creation or property application); disabling always applies value 0 to
the connector property, blob or no blob; and over any sequence of `setHdrMode`
calls (including repeated enables) at most one metadata blob is ever live. -/
theorem setHdrMode_blob_discipline :
    (∀ (env : DrmEnv) (st : DrmRenderer) (b : Bool) (p : drmModePropertyRes),
      st.m_HdrOutputMetadataProp = some p →
      st.m_HdrOutputMetadataBlobId ≠ 0 →
      ∃ rest, (setHdrMode env st b).2 =
        DrmEvent.destroyBlob st.m_HdrOutputMetadataBlobId :: rest) ∧
    (∀ (env : DrmEnv) (st : DrmRenderer) (p : drmModePropertyRes),
      st.m_HdrOutputMetadataProp = some p →
      ∃ tr, (setHdrMode env st false).2 =
        tr ++ [DrmEvent.setConnectorProp p.prop_id 0 env.setConnectorPropOk]) ∧
    (∀ (calls : List (DrmEnv × Bool)) (st0 : DrmRenderer),
      st0.m_HdrOutputMetadataBlobId = 0 →
      (∀ c ∈ calls, c.1.createBlobResult ≠ some 0) →
      (liveBlobs (runHdrCalls calls st0).2).length ≤ 1) := by
  refine ⟨?_, ?_, ?_⟩
  · intro env st b p hp hb
    cases b
    · exact ⟨[DrmEvent.setConnectorProp p.prop_id 0 env.setConnectorPropOk],
        by simp [setHdrMode, hp, hb]⟩
    · rcases hc : env.createBlobResult with _ | blobId
      · exact ⟨[DrmEvent.createBlobFailed,
          DrmEvent.setConnectorProp p.prop_id 0 env.setConnectorPropOk],
          by simp [setHdrMode, hp, hb, hc]⟩
      · exact ⟨[DrmEvent.createBlob blobId,
          DrmEvent.setConnectorProp p.prop_id blobId env.setConnectorPropOk],
          by simp [setHdrMode, hp, hb, hc]⟩
  · intro env st p hp
    by_cases hb : st.m_HdrOutputMetadataBlobId = 0
    · exact ⟨[], by simp [setHdrMode, hp, hb]⟩
    · exact ⟨[DrmEvent.destroyBlob st.m_HdrOutputMetadataBlobId],
        by simp [setHdrMode, hp, hb]⟩
  · intro calls st0 h0 hc
    have h := runHdrCalls_live calls st0 hc
    have hb : blobList st0 = [] := by simp [blobList, h0]
    rw [liveBlobs, show (([] : List Nat) = blobList st0) from hb.symm, h]
    unfold blobList
    split
    · simp
    · simp

theorem setHdrMode_blob_discipline_witness :
    (∃ rest, (setHdrMode envC4 stC4 true).2 =
      DrmEvent.destroyBlob stC4.m_HdrOutputMetadataBlobId :: rest) ∧
    (∃ tr, (setHdrMode envC4 stC4 false).2 =
      tr ++ [DrmEvent.setConnectorProp pC4.prop_id 0 envC4.setConnectorPropOk]) ∧
    (liveBlobs (runHdrCalls [(envC4, true), (envC4, true)] stC4z).2).length ≤ 1 := by
  refine ⟨?_, ?_, ?_⟩
  · exact setHdrMode_blob_discipline.1 envC4 stC4 true pC4 rfl (by decide)
  · exact setHdrMode_blob_discipline.2.1 envC4 stC4 pC4 rfl
  · exact setHdrMode_blob_discipline.2.2 [(envC4, true), (envC4, true)] stC4z rfl
      (by decide)

theorem unmapCount_append (a b : List DrmEvent) :
    unmapCount (a ++ b) = unmapCount a + unmapCount b :=
  List.countP_append _ _ _

/-- Any path through the body of `renderFrame` after a successful map emits
exactly one unmap. -/
theorem unmapCount_renderFrameWith (env : DrmEnv) (st : DrmRenderer)
    (frame : AVFrame) (drm : AVDRMFrameDescriptor) (evs0 : List DrmEvent)
    (hB : st.m_BackendRenderer = true) (h0 : unmapCount evs0 = 0) :
    unmapCount (renderFrameWith env st frame drm evs0).2 = 1 := by
  unfold renderFrameWith
  rcases hr : resolvePlanes env drm.objects ((drm.layers.getD 0 default).planes)
    with ⟨evs1, r⟩
  have hev1 : ∀ e ∈ evs1, ∃ fd ok, e = DrmEvent.primeFdToHandle fd ok := by
    have h := resolvePlanes_events env drm.objects ((drm.layers.getD 0 default).planes)
    rw [hr] at h
    exact h
  have hz1 : unmapCount evs1 = 0 := by
    apply List.countP_eq_zero.mpr
    intro e he
    obtain ⟨fd, ok, rfl⟩ := hev1 e he
    simp [isUnmap]
  have hcz : ∀ st' : DrmRenderer, unmapCount (colorNegotiation env st' frame).2 = 0 := by
    intro st'
    apply List.countP_eq_zero.mpr
    intro e he
    rcases colorNegotiation_events env st' frame e he with
      ⟨p, v, ok, rfl⟩ | ⟨n, d, rfl⟩ | ⟨n, rfl⟩ <;> simp [isUnmap]
  dsimp only
  rw [hr]
  rcases r with _ | res
  · simp only [unmapCount_append, hz1, h0, hB, if_true]
    rfl
  · rcases env.addFbResult with _ | newFb
    · simp only [unmapCount_append, hz1, h0, hB, if_true]
      rfl
    · rcases env.setPlaneOk with _ | _ <;>
        simp only [Bool.false_eq_true, if_false, if_true, unmapCount_append,
          hz1, h0, hB, hcz] <;> rfl

/-- C8: with a composing backend whose map succeeds, both `renderFrame` and
`testRenderFrame` call the paired unmap exactly once before returning, on every
exit path (handle-resolution failure, framebuffer creation failure or success,
commit failure or success, and the test path). -/
theorem backend_unmap_exactly_once (env : DrmEnv) (st : DrmRenderer)
    (frame : AVFrame) (hB : st.m_BackendRenderer = true) (hm : env.mapOk = true) :
    unmapCount (renderFrame env st frame).2 = 1 ∧
    unmapCount (testRenderFrame env st frame).2 = 1 := by
  constructor
  · simp only [renderFrame, hB, hm, if_true]
    exact unmapCount_renderFrameWith env st frame env.mappedFrame
      [DrmEvent.mapFrame] hB rfl
  · simp only [testRenderFrame, hB, hm, if_true]
    rfl

theorem backend_unmap_exactly_once_witness :
    unmapCount (renderFrame envC8 stC8
      ⟨64, 64, 1, false, ⟨[], []⟩⟩).2 = 1 ∧
    unmapCount (testRenderFrame envC8 stC8
      ⟨64, 64, 1, false, ⟨[], []⟩⟩).2 = 1 :=
  backend_unmap_exactly_once envC8 stC8 ⟨64, 64, 1, false, ⟨[], []⟩⟩ rfl rfl

/-- `renderFrame_shape` specialised to a successful commit. -/
theorem renderFrame_commitOk (env : DrmEnv) (st : DrmRenderer) (frame : AVFrame)
    (h : reachesAddFB env st frame) (newFb : Nat)
    (hadd : env.addFbResult = some newFb) (hok : env.setPlaneOk = true) :
    ∃ evs1, (∀ e ∈ evs1, ∃ fd, e = DrmEvent.primeFdToHandle fd true) ∧
      renderFrame env st frame =
        ((colorNegotiation env { st with m_CurrentFbId := newFb } frame).1,
         mapEvs st ++ evs1 ++ [DrmEvent.addFB newFb] ++ unmapEvsOf st ++
          (colorNegotiation env { st with m_CurrentFbId := newFb } frame).2 ++
          [DrmEvent.setPlane newFb true, DrmEvent.rmFB st.m_CurrentFbId]) := by
  obtain ⟨evs1, hev, heq⟩ := renderFrame_shape env st frame h newFb hadd
  exact ⟨evs1, hev, by rw [heq]; simp [hok]⟩

/-- `renderFrame_shape` specialised to a failed commit. -/
theorem renderFrame_commitFail (env : DrmEnv) (st : DrmRenderer) (frame : AVFrame)
    (h : reachesAddFB env st frame) (newFb : Nat)
    (hadd : env.addFbResult = some newFb) (hok : env.setPlaneOk = false) :
    ∃ evs1, (∀ e ∈ evs1, ∃ fd, e = DrmEvent.primeFdToHandle fd true) ∧
      renderFrame env st frame =
        ({ (colorNegotiation env { st with m_CurrentFbId := newFb } frame).1 with
            m_CurrentFbId := st.m_CurrentFbId },
         mapEvs st ++ evs1 ++ [DrmEvent.addFB newFb] ++ unmapEvsOf st ++
          (colorNegotiation env { st with m_CurrentFbId := newFb } frame).2 ++
          [DrmEvent.setPlane newFb false, DrmEvent.rmFB newFb]) := by
  obtain ⟨evs1, hev, heq⟩ := renderFrame_shape env st frame h newFb hadd
  exact ⟨evs1, hev, by rw [heq]; simp [hok]⟩

/-- Classification of every event that can occur before the commit step. -/
theorem pre_commit_events (env : DrmEnv) (st : DrmRenderer) (frame : AVFrame)
    (newFb : Nat) (evs1 : List DrmEvent)
    (hev : ∀ e ∈ evs1, ∃ fd, e = DrmEvent.primeFdToHandle fd true) :
    ∀ e ∈ mapEvs st ++ evs1 ++ [DrmEvent.addFB newFb] ++ unmapEvsOf st ++
        (colorNegotiation env { st with m_CurrentFbId := newFb } frame).2,
      e = DrmEvent.mapFrame ∨ (∃ fd, e = DrmEvent.primeFdToHandle fd true) ∨
      e = DrmEvent.addFB newFb ∨ e = DrmEvent.unmapFrame ∨
      (∃ p v ok, e = DrmEvent.setPlaneProp p v ok) ∨
      (∃ n d, e = DrmEvent.warnNoMatchingEnum n d) ∨
      (∃ n, e = DrmEvent.warnMissingProp n) := by
  intro e he
  simp only [List.mem_append] at he
  rcases he with ((((h1 | h1) | h1) | h1) | h1)
  · unfold mapEvs at h1
    split at h1 <;> simp at h1
    exact Or.inl h1
  · exact Or.inr (Or.inl (hev e h1))
  · simp at h1
    exact Or.inr (Or.inr (Or.inl h1))
  · unfold unmapEvsOf at h1
    split at h1 <;> simp at h1
    exact Or.inr (Or.inr (Or.inr (Or.inl h1)))
  · rcases colorNegotiation_events env _ frame e h1 with h2 | h2 | h2
    · exact Or.inr (Or.inr (Or.inr (Or.inr (Or.inl h2))))
    · exact Or.inr (Or.inr (Or.inr (Or.inr (Or.inr (Or.inl h2)))))
    · exact Or.inr (Or.inr (Or.inr (Or.inr (Or.inr (Or.inr h2)))))

/-- C1: on a render call with a single composed layer and 1–4 planes in which
mapping (if any), handle resolution, framebuffer creation and the plane commit
all succeed, the new framebuffer is recorded as the one current framebuffer,
and the trace ends with the commit followed by the destruction of the
previously current framebuffer — no framebuffer is destroyed before the
commit. -/
theorem renderFrame_success_fb_lifecycle (env : DrmEnv) (st : DrmRenderer)
    (frame : AVFrame) (newFb : Nat)
    (h : reachesAddFB env st frame)
    (hL : (effDesc env st frame).layers.length = 1)
    (hp1 : 1 ≤ (effLayer env st frame).planes.length)
    (hp4 : (effLayer env st frame).planes.length ≤ 4)
    (hadd : env.addFbResult = some newFb)
    (hok : env.setPlaneOk = true) :
    (renderFrame env st frame).1.m_CurrentFbId = newFb ∧
    ∃ pre, (renderFrame env st frame).2 =
        pre ++ [DrmEvent.setPlane newFb true, DrmEvent.rmFB st.m_CurrentFbId] ∧
      ∀ fbId, DrmEvent.rmFB fbId ∉ pre := by
  obtain ⟨evs1, hev, heq⟩ := renderFrame_commitOk env st frame h newFb hadd hok
  constructor
  · rw [heq]
    simp [colorNegotiation_fst]
  · refine ⟨mapEvs st ++ evs1 ++ [DrmEvent.addFB newFb] ++ unmapEvsOf st ++
      (colorNegotiation env { st with m_CurrentFbId := newFb } frame).2, ?_, ?_⟩
    · rw [heq]
    · intro fbId hmem
      rcases pre_commit_events env st frame newFb evs1 hev _ hmem with
        h2 | ⟨fd, h2⟩ | h2 | h2 | ⟨p, v, ok, h2⟩ | ⟨n, d, h2⟩ | ⟨n, h2⟩ <;>
        simp at h2

/-- C2: if framebuffer creation fails, the whole state (in particular the
current framebuffer id) is unchanged and no plane commit is attempted; if the
commit fails, the just-created framebuffer — and only it — is destroyed, the
prior current id is restored, and no successful commit occurs, so the visible
output is unchanged in both cases. -/
theorem renderFrame_failure_rollback (env : DrmEnv) (st : DrmRenderer)
    (frame : AVFrame) (h : reachesAddFB env st frame) :
    (env.addFbResult = none →
      (renderFrame env st frame).1 = st ∧
      ∀ fb ok, DrmEvent.setPlane fb ok ∉ (renderFrame env st frame).2) ∧
    (∀ newFb, env.addFbResult = some newFb → env.setPlaneOk = false →
      (renderFrame env st frame).1.m_CurrentFbId = st.m_CurrentFbId ∧
      DrmEvent.rmFB newFb ∈ (renderFrame env st frame).2 ∧
      (∀ fbId, DrmEvent.rmFB fbId ∈ (renderFrame env st frame).2 → fbId = newFb) ∧
      ∀ fb, DrmEvent.setPlane fb true ∉ (renderFrame env st frame).2) := by
  constructor
  · intro hadd
    obtain ⟨evs1, hev, heq⟩ := renderFrame_addFB_failed env st frame h hadd
    rw [heq]
    refine ⟨rfl, ?_⟩
    intro fb ok hmem
    simp only [List.mem_append] at hmem
    rcases hmem with ((h1 | h1) | h1) | h1
    · unfold mapEvs at h1
      split at h1 <;> simp at h1
    · obtain ⟨fd, h1⟩ := hev _ h1
      simp at h1
    · simp at h1
    · unfold unmapEvsOf at h1
      split at h1 <;> simp at h1
  · intro newFb hadd hok
    obtain ⟨evs1, hev, heq⟩ := renderFrame_commitFail env st frame h newFb hadd hok
    rw [heq]
    refine ⟨rfl, by simp, ?_, ?_⟩
    · intro fbId hmem
      rw [show mapEvs st ++ evs1 ++ [DrmEvent.addFB newFb] ++ unmapEvsOf st ++
          (colorNegotiation env { st with m_CurrentFbId := newFb } frame).2 ++
          [DrmEvent.setPlane newFb false, DrmEvent.rmFB newFb] =
        (mapEvs st ++ evs1 ++ [DrmEvent.addFB newFb] ++ unmapEvsOf st ++
          (colorNegotiation env { st with m_CurrentFbId := newFb } frame).2) ++
          [DrmEvent.setPlane newFb false, DrmEvent.rmFB newFb] from rfl] at hmem
      rcases List.mem_append.mp hmem with h1 | h1
      · rcases pre_commit_events env st frame newFb evs1 hev _ h1 with
          h2 | ⟨fd, h2⟩ | h2 | h2 | ⟨p, v, ok, h2⟩ | ⟨n, d, h2⟩ | ⟨n, h2⟩ <;>
          simp at h2
      · simp at h1
        exact h1
    · intro fb hmem
      rw [show mapEvs st ++ evs1 ++ [DrmEvent.addFB newFb] ++ unmapEvsOf st ++
          (colorNegotiation env { st with m_CurrentFbId := newFb } frame).2 ++
          [DrmEvent.setPlane newFb false, DrmEvent.rmFB newFb] =
        (mapEvs st ++ evs1 ++ [DrmEvent.addFB newFb] ++ unmapEvsOf st ++
          (colorNegotiation env { st with m_CurrentFbId := newFb } frame).2) ++
          [DrmEvent.setPlane newFb false, DrmEvent.rmFB newFb] from rfl] at hmem
      rcases List.mem_append.mp hmem with h1 | h1
      · rcases pre_commit_events env st frame newFb evs1 hev _ h1 with
          h2 | ⟨fd, h2⟩ | h2 | h2 | ⟨p, v, ok, h2⟩ | ⟨n, d, h2⟩ | ⟨n, h2⟩ <;>
          simp at h2
      · simp at h1

theorem renderFrame_success_fb_lifecycle_witness :
    (renderFrame envC1 stC1 frameC1).1.m_CurrentFbId = 77 ∧
    ∃ pre, (renderFrame envC1 stC1 frameC1).2 =
        pre ++ [DrmEvent.setPlane 77 true, DrmEvent.rmFB stC1.m_CurrentFbId] ∧
      ∀ fbId, DrmEvent.rmFB fbId ∉ pre :=
  renderFrame_success_fb_lifecycle envC1 stC1 frameC1 77 ⟨by decide, by decide⟩
    (by decide) (by decide) (by decide) rfl rfl

theorem renderFrame_failure_rollback_witness :
    ((renderFrame envC2 stC2 frameC2).1 = stC2 ∧
     ∀ fb ok, DrmEvent.setPlane fb ok ∉ (renderFrame envC2 stC2 frameC2).2) ∧
    ((renderFrame envC2b stC2 frameC2).1.m_CurrentFbId = stC2.m_CurrentFbId ∧
     DrmEvent.rmFB 77 ∈ (renderFrame envC2b stC2 frameC2).2 ∧
     (∀ fbId, DrmEvent.rmFB fbId ∈ (renderFrame envC2b stC2 frameC2).2 →
       fbId = 77) ∧
     ∀ fb, DrmEvent.setPlane fb true ∉ (renderFrame envC2b stC2 frameC2).2) :=
  ⟨(renderFrame_failure_rollback envC2 stC2 frameC2 ⟨by decide, by decide⟩).1 rfl,
   (renderFrame_failure_rollback envC2b stC2 frameC2 ⟨by decide, by decide⟩).2 77 rfl rfl⟩

/-- After a render call that reaches color negotiation, both caches hold the
frame's values. -/
theorem renderFrame_caches (env : DrmEnv) (st : DrmRenderer) (frame : AVFrame)
    (newFb : Nat) (h : reachesAddFB env st frame)
    (hadd : env.addFbResult = some newFb) :
    (renderFrame env st frame).1.m_LastFullRange = isFrameFullRange frame ∧
    (renderFrame env st frame).1.m_LastColorSpace = getFrameColorspace frame := by
  obtain ⟨evs1, hev, heq⟩ := renderFrame_shape env st frame h newFb hadd
  rw [heq]
  rcases env.setPlaneOk with _ | _ <;> simp [colorNegotiation_fst]

/-- A render call that reaches color negotiation changes neither the backend
flag nor the cached property descriptors. -/
theorem renderFrame_fst_fields (env : DrmEnv) (st : DrmRenderer) (frame : AVFrame)
    (newFb : Nat) (h : reachesAddFB env st frame)
    (hadd : env.addFbResult = some newFb) :
    (renderFrame env st frame).1.m_BackendRenderer = st.m_BackendRenderer ∧
    (renderFrame env st frame).1.m_ColorRangeProp = st.m_ColorRangeProp ∧
    (renderFrame env st frame).1.m_ColorEncodingProp = st.m_ColorEncodingProp := by
  obtain ⟨evs1, hev, heq⟩ := renderFrame_shape env st frame h newFb hadd
  rw [heq]
  rcases env.setPlaneOk with _ | _ <;> simp [colorNegotiation_fst]

/-- C6 (amended): the cached color state is updated to the frame's values on
every render call that reaches color negotiation (i.e. on which framebuffer
creation succeeded) whenever the corresponding change condition holds,
regardless of whether a property write was attempted — including when the
property is absent or no enum name matched; it is unchanged whenever the call
aborts before color negotiation. -/
theorem colorState_cache_sync :
    (∀ (env : DrmEnv) (st : DrmRenderer) (frame : AVFrame) (newFb : Nat),
      reachesAddFB env st frame → env.addFbResult = some newFb →
      (renderFrame env st frame).1.m_LastFullRange = isFrameFullRange frame ∧
      (renderFrame env st frame).1.m_LastColorSpace = getFrameColorspace frame) ∧
    (∀ (env : DrmEnv) (st : DrmRenderer) (frame : AVFrame),
      env.addFbResult = none → (renderFrame env st frame).1 = st) := by
  constructor
  · intro env st frame newFb h hadd
    exact renderFrame_caches env st frame newFb h hadd
  · intro env st frame hadd
    exact renderFrame_fst_of_addFB_failed env st frame hadd

/-- C6 counterexample: on a successful render call where both color properties
are absent, no property write is attempted (the trace contains no plane
property write at all), yet both cached values are updated — contradicting the
claim that the cache is updated only after a confirmed write attempt. -/
theorem colorState_cache_cex :
    stC6.m_LastFullRange = false ∧ stC6.m_LastColorSpace = 0 ∧
    stC6.m_ColorRangeProp = none ∧ stC6.m_ColorEncodingProp = none ∧
    (renderFrame envC6 stC6 frameC6).2.countP isPlanePropWrite = 0 ∧
    (renderFrame envC6 stC6 frameC6).1.m_LastFullRange = true ∧
    (renderFrame envC6 stC6 frameC6).1.m_LastColorSpace = 1 := by
  decide

theorem colorState_cache_sync_witness :
    ((renderFrame envC6w stC6w frameC6w).1.m_LastFullRange =
        isFrameFullRange frameC6w ∧
     (renderFrame envC6w stC6w frameC6w).1.m_LastColorSpace =
        getFrameColorspace frameC6w) ∧
    (renderFrame envC6n stC6w frameC6w).1 = stC6w :=
  ⟨colorState_cache_sync.1 envC6w stC6w frameC6w 7 ⟨by decide, by decide⟩ rfl,
   colorState_cache_sync.2 envC6n stC6w frameC6w rfl⟩

/-- The range block never touches the colorspace cache. -/
theorem applyColorRange_fst_CS (env : DrmEnv) (st : DrmRenderer) (frame : AVFrame) :
    (applyColorRange env st frame).1.m_LastColorSpace = st.m_LastColorSpace := by
  unfold applyColorRange
  split <;> simp

/-- The range block never touches the encoding-property descriptor. -/
theorem applyColorRange_fst_encProp (env : DrmEnv) (st : DrmRenderer) (frame : AVFrame) :
    (applyColorRange env st frame).1.m_ColorEncodingProp = st.m_ColorEncodingProp := by
  unfold applyColorRange
  split <;> simp

/-- Exactly when each of the two color-property writes appears in the events of
the color blocks, given that both properties exist with matching enum names. -/
theorem colorNegotiation_write_iff (env : DrmEnv) (st : DrmRenderer) (frame : AVFrame)
    (rp ep : drmModePropertyRes) (v1 v2 : Nat) (s2 se : String)
    (hrp : st.m_ColorRangeProp = some rp) (hep : st.m_ColorEncodingProp = some ep)
    (hne : rp.prop_id ≠ ep.prop_id)
    (hs2 : getDrmColorRangeValue frame = some s2)
    (hv1 : findEnumValue rp s2 = some v1)
    (hse : getDrmColorEncodingValue frame = some se)
    (hv2 : findEnumValue ep se = some v2) :
    ((DrmEvent.setPlaneProp rp.prop_id v1 env.setPlanePropOk ∈
        (colorNegotiation env st frame).2) ↔
      (isFrameFullRange frame ≠ st.m_LastFullRange ∨
       getFrameColorspace frame ≠ st.m_LastColorSpace)) ∧
    ((DrmEvent.setPlaneProp ep.prop_id v2 env.setPlanePropOk ∈
        (colorNegotiation env st frame).2) ↔
      getFrameColorspace frame ≠ st.m_LastColorSpace) := by
  have hrange : (applyColorRange env st frame).2 =
      if isFrameFullRange frame ≠ st.m_LastFullRange ∨
          getFrameColorspace frame ≠ st.m_LastColorSpace then
        [DrmEvent.setPlaneProp rp.prop_id v1 env.setPlanePropOk]
      else [] := by
    unfold applyColorRange
    split
    · simp [negotiateProp, hrp, hs2, hv1]
    · simp
  have henc : (applyColorEncoding env (applyColorRange env st frame).1 frame).2 =
      if getFrameColorspace frame ≠ st.m_LastColorSpace then
        [DrmEvent.setPlaneProp ep.prop_id v2 env.setPlanePropOk]
      else [] := by
    unfold applyColorEncoding
    rw [applyColorRange_fst_CS, applyColorRange_fst_encProp]
    split
    · simp [negotiateProp, hep, hse, hv2]
    · simp
  unfold colorNegotiation
  simp only [List.mem_append, hrange, henc]
  by_cases hR : isFrameFullRange frame ≠ st.m_LastFullRange ∨
      getFrameColorspace frame ≠ st.m_LastColorSpace <;>
    by_cases hE : getFrameColorspace frame ≠ st.m_LastColorSpace <;>
      simp [hR, hE, hne, Ne.symm hne]

/-- A plane-property write appears in a render call's trace exactly when it
appears in the color-block events of that call. -/
theorem renderFrame_mem_planePropWrite (env : DrmEnv) (st : DrmRenderer)
    (frame : AVFrame) (newFb : Nat) (h : reachesAddFB env st frame)
    (hadd : env.addFbResult = some newFb) (p v : Nat) (ok : Bool) :
    DrmEvent.setPlaneProp p v ok ∈ (renderFrame env st frame).2 ↔
      DrmEvent.setPlaneProp p v ok ∈
        (colorNegotiation env { st with m_CurrentFbId := newFb } frame).2 := by
  obtain ⟨evs1, hev, heq⟩ := renderFrame_shape env st frame h newFb hadd
  rw [heq]
  rcases env.setPlaneOk with _ | _ <;>
    simp only [Bool.false_eq_true, if_false, if_true] <;>
    · constructor
      · intro hm
        simp only [List.mem_append] at hm
        rcases hm with (((((h1 | h1) | h1) | h1) | h1) | h1)
        · unfold mapEvs at h1
          split at h1 <;> simp at h1
        · obtain ⟨fd, h1⟩ := hev _ h1
          simp at h1
        · simp at h1
        · unfold unmapEvsOf at h1
          split at h1 <;> simp at h1
        · exact h1
        · simp at h1
      · intro hm
        simp only [List.mem_append]
        exact Or.inl (Or.inr hm)

/-- C3: across two consecutive render calls that both reach color negotiation,
the color-range property is written on the second call exactly when the
full-range flag or the colorspace differs from the previous frame — in
particular when only the colorspace changed — while the color-encoding
property is written exactly when the colorspace itself changed (both
properties present with matching enum names). -/
theorem colorRange_reapplied_on_colorspace_change
    (env1 env2 : DrmEnv) (st0 : DrmRenderer) (f1 f2 : AVFrame)
    (fb1 fb2 : Nat) (rp ep : drmModePropertyRes) (v1 v2 : Nat) (s2 se : String)
    (h1 : reachesAddFB env1 st0 f1) (hadd1 : env1.addFbResult = some fb1)
    (h2 : reachesAddFB env2 (renderFrame env1 st0 f1).1 f2)
    (hadd2 : env2.addFbResult = some fb2)
    (hrp : st0.m_ColorRangeProp = some rp)
    (hep : st0.m_ColorEncodingProp = some ep)
    (hne : rp.prop_id ≠ ep.prop_id)
    (hs2 : getDrmColorRangeValue f2 = some s2)
    (hv1 : findEnumValue rp s2 = some v1)
    (hse : getDrmColorEncodingValue f2 = some se)
    (hv2 : findEnumValue ep se = some v2) :
    ((DrmEvent.setPlaneProp rp.prop_id v1 env2.setPlanePropOk ∈
        (renderFrame env2 (renderFrame env1 st0 f1).1 f2).2) ↔
      (isFrameFullRange f2 ≠ isFrameFullRange f1 ∨
       getFrameColorspace f2 ≠ getFrameColorspace f1)) ∧
    ((DrmEvent.setPlaneProp ep.prop_id v2 env2.setPlanePropOk ∈
        (renderFrame env2 (renderFrame env1 st0 f1).1 f2).2) ↔
      getFrameColorspace f2 ≠ getFrameColorspace f1) := by
  have hfields := renderFrame_fst_fields env1 st0 f1 fb1 h1 hadd1
  have hcache := renderFrame_caches env1 st0 f1 fb1 h1 hadd1
  have hrp1 : (renderFrame env1 st0 f1).1.m_ColorRangeProp = some rp := by
    rw [hfields.2.1, hrp]
  have hep1 : (renderFrame env1 st0 f1).1.m_ColorEncodingProp = some ep := by
    rw [hfields.2.2, hep]
  have hiff := colorNegotiation_write_iff env2
    { (renderFrame env1 st0 f1).1 with m_CurrentFbId := fb2 } f2
    rp ep v1 v2 s2 se (by simpa using hrp1) (by simpa using hep1)
    hne hs2 hv1 hse hv2
  constructor
  · rw [renderFrame_mem_planePropWrite env2 (renderFrame env1 st0 f1).1 f2 fb2
      h2 hadd2 rp.prop_id v1 env2.setPlanePropOk, hiff.1]
    simp only []
    rw [show ({ (renderFrame env1 st0 f1).1 with
        m_CurrentFbId := fb2 } : DrmRenderer).m_LastFullRange =
      (renderFrame env1 st0 f1).1.m_LastFullRange from rfl]
    rw [show ({ (renderFrame env1 st0 f1).1 with
        m_CurrentFbId := fb2 } : DrmRenderer).m_LastColorSpace =
      (renderFrame env1 st0 f1).1.m_LastColorSpace from rfl]
    rw [hcache.1, hcache.2]
  · rw [renderFrame_mem_planePropWrite env2 (renderFrame env1 st0 f1).1 f2 fb2
      h2 hadd2 ep.prop_id v2 env2.setPlanePropOk, hiff.2]
    rw [show ({ (renderFrame env1 st0 f1).1 with
        m_CurrentFbId := fb2 } : DrmRenderer).m_LastColorSpace =
      (renderFrame env1 st0 f1).1.m_LastColorSpace from rfl]
    rw [hcache.2]

theorem colorRange_reapplied_on_colorspace_change_witness :
    ((DrmEvent.setPlaneProp rpC3.prop_id 0 env2C3.setPlanePropOk ∈
        (renderFrame env2C3 (renderFrame env1C3 st0C3 f1C3).1 f2C3).2) ↔
      (isFrameFullRange f2C3 ≠ isFrameFullRange f1C3 ∨
       getFrameColorspace f2C3 ≠ getFrameColorspace f1C3)) ∧
    ((DrmEvent.setPlaneProp epC3.prop_id 2 env2C3.setPlanePropOk ∈
        (renderFrame env2C3 (renderFrame env1C3 st0C3 f1C3).1 f2C3).2) ↔
      getFrameColorspace f2C3 ≠ getFrameColorspace f1C3) :=
  colorRange_reapplied_on_colorspace_change env1C3 env2C3 st0C3 f1C3 f2C3
    7 8 rpC3 epC3 0 2 "YCbCr limited range" "ITU-R BT.2020 YCbCr"
    ⟨by decide, by decide⟩ rfl ⟨by decide, by decide⟩ rfl
    rfl rfl (by decide) rfl (by decide) rfl (by decide)

/-- C7: for a single-layer frame with exactly 2 planes whose objects declare
valid (non-default) modifiers, with the modifier extension available and a
known colorspace, the exported attribute list is exactly: format, width,
height, the plane-0 fd/offset/pitch triple with its modifier pair, the plane-1
triple with its modifier pair, one colorspace hint, one range hint, and the
terminating sentinel, in that order. -/
theorem exportEGLImages_attrib_layout (frame : AVFrame)
    (L : AVDRMLayerDescriptor) (pl0 pl1 : AVDRMPlaneDescriptor)
    (o0 o1 : AVDRMObjectDescriptor)
    (hL : frame.descriptor.layers = [L])
    (hpl : L.planes = [pl0, pl1])
    (ho0 : frame.descriptor.objects.getD pl0.object_index default = o0)
    (ho1 : frame.descriptor.objects.getD pl1.object_index default = o1)
    (hm0 : o0.format_modifier ≠ DRM_FORMAT_MOD_INVALID)
    (hm1 : o1.format_modifier ≠ DRM_FORMAT_MOD_INVALID)
    (hcs : getFrameColorspace frame = COLORSPACE_REC_601 ∨
           getFrameColorspace frame = COLORSPACE_REC_709 ∨
           getFrameColorspace frame = COLORSPACE_REC_2020) :
    buildEGLAttribs true frame =
      [EGL_LINUX_DRM_FOURCC_EXT, (L.format : Int),
       EGL_WIDTH, (frame.width : Int),
       EGL_HEIGHT, (frame.height : Int),
       EGL_DMA_BUF_PLANE0_FD_EXT, o0.fd,
       EGL_DMA_BUF_PLANE0_OFFSET_EXT, (pl0.offset : Int),
       EGL_DMA_BUF_PLANE0_PITCH_EXT, (pl0.pitch : Int),
       EGL_DMA_BUF_PLANE0_MODIFIER_LO_EXT, toEGLint (o0.format_modifier % 2 ^ 32),
       EGL_DMA_BUF_PLANE0_MODIFIER_HI_EXT, toEGLint (o0.format_modifier / 2 ^ 32),
       EGL_DMA_BUF_PLANE1_FD_EXT, o1.fd,
       EGL_DMA_BUF_PLANE1_OFFSET_EXT, (pl1.offset : Int),
       EGL_DMA_BUF_PLANE1_PITCH_EXT, (pl1.pitch : Int),
       EGL_DMA_BUF_PLANE1_MODIFIER_LO_EXT, toEGLint (o1.format_modifier % 2 ^ 32),
       EGL_DMA_BUF_PLANE1_MODIFIER_HI_EXT, toEGLint (o1.format_modifier / 2 ^ 32),
       EGL_YUV_COLOR_SPACE_HINT_EXT,
       (if getFrameColorspace frame = COLORSPACE_REC_601 then EGL_ITU_REC601_EXT
        else if getFrameColorspace frame = COLORSPACE_REC_709 then EGL_ITU_REC709_EXT
        else EGL_ITU_REC2020_EXT),
       EGL_SAMPLE_RANGE_HINT_EXT,
       (if isFrameFullRange frame then EGL_YUV_FULL_RANGE_EXT
        else EGL_YUV_NARROW_RANGE_EXT),
       EGL_NONE] := by
  have hb0 : (o0.format_modifier != DRM_FORMAT_MOD_INVALID) = true := by
    simpa using hm0
  have hb1 : (o1.format_modifier != DRM_FORMAT_MOD_INVALID) = true := by
    simpa using hm1
  unfold buildEGLAttribs
  dsimp only
  rw [hL]
  simp only [List.getD_cons_zero]
  rw [hpl]
  simp only [exportPlanesAttribs]
  rw [ho0, ho1]
  rcases hcs with hc | hc | hc <;>
    simp [exportPlaneAttribs, exportColorspaceHint, hb0, hb1, hc,
      COLORSPACE_REC_601, COLORSPACE_REC_709, COLORSPACE_REC_2020]

theorem exportEGLImages_attrib_layout_witness :
    buildEGLAttribs true fC7 =
      [EGL_LINUX_DRM_FOURCC_EXT, (842094158 : Int),
       EGL_WIDTH, (1920 : Int),
       EGL_HEIGHT, (1080 : Int),
       EGL_DMA_BUF_PLANE0_FD_EXT, (5 : Int),
       EGL_DMA_BUF_PLANE0_OFFSET_EXT, (0 : Int),
       EGL_DMA_BUF_PLANE0_PITCH_EXT, (1920 : Int),
       EGL_DMA_BUF_PLANE0_MODIFIER_LO_EXT, toEGLint (72057594037927937 % 2 ^ 32),
       EGL_DMA_BUF_PLANE0_MODIFIER_HI_EXT, toEGLint (72057594037927937 / 2 ^ 32),
       EGL_DMA_BUF_PLANE1_FD_EXT, (5 : Int),
       EGL_DMA_BUF_PLANE1_OFFSET_EXT, (2073600 : Int),
       EGL_DMA_BUF_PLANE1_PITCH_EXT, (1920 : Int),
       EGL_DMA_BUF_PLANE1_MODIFIER_LO_EXT, toEGLint (72057594037927937 % 2 ^ 32),
       EGL_DMA_BUF_PLANE1_MODIFIER_HI_EXT, toEGLint (72057594037927937 / 2 ^ 32),
       EGL_YUV_COLOR_SPACE_HINT_EXT, EGL_ITU_REC709_EXT,
       EGL_SAMPLE_RANGE_HINT_EXT, EGL_YUV_NARROW_RANGE_EXT,
       EGL_NONE] := by
  have h := exportEGLImages_attrib_layout fC7
    ⟨842094158, [⟨0, 0, 1920⟩, ⟨0, 2073600, 1920⟩]⟩
    ⟨0, 0, 1920⟩ ⟨0, 2073600, 1920⟩
    ⟨5, 72057594037927937⟩ ⟨5, 72057594037927937⟩
    rfl rfl rfl rfl (by decide) (by decide) (Or.inr (Or.inl (by decide)))
  simpa using h

end DrmSpec
